import Mathlib

/-!
Verification of the SentryLab-Docker poll/publish pipeline
(`src/templates/monitor.py` and `src/templates/discovery.py`).

The two scripts are straight-line poll-transform-publish pipelines.  The
embedding below models them as pure functions from the container data they
read (the docker-py attribute records) to the list of MQTT messages they
publish.  Conventions:

* A docker-py container handle is a `Container` record.  Dictionary `.get`
  accesses with defaults become `Option` fields; attribute accesses that can
  raise (`container.image.tags`, or the whole `reload`/`attrs` fetch) become
  `Except Unit` / `Bool` fields, mirroring the `try/except` blocks of the
  source.
* Timestamps are modelled at second granularity as `Int` (seconds since the
  epoch).  `datetime.fromisoformat` is an opaque parameter
  `parse : String → Option Int` (`none` models a raised `ValueError`); the
  `datetime.now` / `datetime.utcnow` values are explicit `now : Int` /
  `nowIso : String` parameters.  Python `timedelta` normalisation
  (`.days` = floor division, `.seconds` = nonnegative remainder) coincides
  with Lean's `Int` `/` and `%` (Euclidean) because the divisors are
  positive.
* A JSON payload (`json.dumps` of a dict literal) is the ordered list of its
  key/value pairs; an MQTT publish is a `Message` value (topic, payload,
  retain flag).  The embedding models the publishing path with a connected
  client (the `DEBUG` dry-run mode publishes nothing and is outside every
  claim).
-/

/-- One JSON value occurring in a published payload: a string, boolean,
integer, or the nested Home-Assistant `device` record. -/
structure DeviceInfo where
  identifiers : List String
  name : String
  model : String
  manufacturer : String
  sw_version : String
deriving DecidableEq, Repr

inductive FVal where
  | s (v : String)
  | b (v : Bool)
  | i (v : Int)
  | dev (d : DeviceInfo)
deriving DecidableEq, Repr

/-- A retained MQTT publish: `client.publish(topic, json.dumps(payload), retain)`.
The payload keeps the insertion order of the Python dict literal, which is
what `json.dumps` serialises. -/
structure Message where
  topic : String
  payload : List (String × FVal)
  retain : Bool
deriving DecidableEq, Repr

/-- The `attrs["State"]` dictionary of a container, with every field that the
code reads through `.get` (hence possibly absent) as an `Option`.
`health = none` models a `State` record with no `"Health"` key;
`health = some h` models a present `"Health"` dict whose `"Status"` entry is
`h` (again optional, read via `.get("Status", "N/A")`). -/
structure StateRec where
  running : Option Bool
  status : Option String
  health : Option (Option String)
  startedAt : Option String
  pid : Option Int
  exitCode : Option Int
  error : Option String
deriving DecidableEq, Repr

instance : DecidableEq (Except Unit (List String)) := fun a b =>
  match a, b with
  | Except.error (), Except.error () => isTrue rfl
  | Except.ok x, Except.ok y =>
      if h : x = y then isTrue (congrArg Except.ok h)
      else isFalse (fun hc => h (Except.ok.inj hc))
  | Except.error (), Except.ok _ => isFalse (fun hc => Except.noConfusion hc)
  | Except.ok _, Except.error () => isFalse (fun hc => Except.noConfusion hc)

/-- A docker-py container handle, as read by both scripts.
`status` is the `container.status` attribute used by `publish_summary`;
`attrsOk = false` models `container.reload()` / `container.attrs` raising
inside `get_container_state`'s outer `try`; `rawImage` is
`attrs["Config"]["Image"]`; `imageTags` is the `container.image.tags`
access, `Except.error ()` modelling a raised exception. -/
structure Container where
  name : String
  status : String
  attrsOk : Bool
  state : StateRec
  rawImage : String
  imageTags : Except Unit (List String)
deriving DecidableEq, Repr

/-- `started_at_str.replace('Z', '+00:00')` (the pattern is the single
character `Z`, so the replacement is character-wise). -/
def replaceZ (s : String) : String :=
  ⟨s.data.flatMap (fun ch => if ch = 'Z' then ( "+00:00").data else [ch])⟩

/-- `calculate_uptime` from `monitor.py` (lines 90-112).  `parse` stands for
`datetime.fromisoformat` returning epoch seconds, `none` for a raised parse
error (the `except` branch); `now` is `datetime.now(timezone.utc)` in epoch
seconds.  `days`/`secs` mirror `uptime_delta.days` / `uptime_delta.seconds`
of the Python `timedelta`. -/
def calculate_uptime (parse : String → Option Int) (now : Int)
    (started_at_str : String) : String :=
  if started_at_str = "" ∨ started_at_str = "0001-01-01T00:00:00Z" then
    "Not started"
  else
    match parse (replaceZ started_at_str) with
    | none => "Unknown"
    | some started_at =>
      let uptime_delta := now - started_at
      let days := uptime_delta / 86400
      let secs := uptime_delta % 86400
      let hours := secs / 3600
      let remainder := secs % 3600
      let minutes := remainder / 60
      let seconds := remainder % 60
      if 0 < days then
        toString days ++ "d " ++ toString hours ++ "h " ++ toString minutes ++ "m"
      else if 0 < hours then
        toString hours ++ "h " ++ toString minutes ++ "m"
      else
        toString minutes ++ "m " ++ toString seconds ++ "s"

/-- `image_full.rsplit(":", 1)` guarded by `if ":" in image_full`: split the
string at its last `:`; with no `:` present, the tag defaults to
`"latest"`.  Implemented on the reversed character list: `dropWhile` keeps
everything from the last `:` on, `takeWhile` is the part after it. -/
def rsplit_colon (s : String) : String × String :=
  let r := s.data.reverse
  if r.dropWhile (fun ch => ch != ':') = [] then
    (s, "latest")
  else
    (⟨((r.dropWhile (fun ch => ch != ':')).drop 1).reverse⟩,
     ⟨(r.takeWhile (fun ch => ch != ':')).reverse⟩)

/-- The inner `try` of `get_container_state` (monitor.py lines 130-140) and
the image block of `publish_container_discovery` (discovery.py lines
108-119): prefer the first runtime tag, fall back to the raw configured
image, split name from tag; on a raised tags access, the version is
`"unknown"` and the name falls back to the raw image. -/
def resolveImage (image : String) (tags : Except Unit (List String)) :
    String × String :=
  match tags with
  | Except.error _ => (image, "unknown")
  | Except.ok ts =>
    let image_full := match ts with
      | [] => image
      | t :: _ => t
    rsplit_colon image_full

/-- The state dictionary built by `get_container_state` (monitor.py lines
142-154). -/
structure Snapshot where
  running : Bool
  state : String
  health : String
  image : String
  image_version : String
  uptime : String
  started_at : String
  pid : Int
  exit_code : Int
  error : String
  timestamp : String
deriving DecidableEq, Repr

/-- `get_container_state` (monitor.py lines 115-157): `none` models the
outer `except` returning `None` (reload / attrs access failed);
otherwise every field is read with the `.get` default of the source. -/
def get_container_state (parse : String → Option Int) (now : Int)
    (nowIso : String) (c : Container) : Option Snapshot :=
  if c.attrsOk then
    let st := c.state
    let health := match st.health with
      | none => "N/A"
      | some h => h.getD "N/A"
    let image := c.rawImage
    let started_at := st.startedAt.getD ""
    let uptime := calculate_uptime parse now started_at
    let iv := resolveImage image c.imageTags
    some
      { running := st.running.getD false
        state := st.status.getD "unknown"
        health := health
        image := image
        image_version := iv.2
        uptime := uptime
        started_at := started_at
        pid := st.pid.getD 0
        exit_code := st.exitCode.getD 0
        error := st.error.getD ""
        timestamp := nowIso }
  else none

/-- Monitor configuration: the environment-derived constants the publishing
code reads (`DEVICE_ID`, `SENTRYLAB_VERSION`). -/
structure MonCfg where
  deviceId : String
  sentrylabVersion : String
deriving DecidableEq, Repr

def snapshot_payload (st : Snapshot) : List (String × FVal) :=
  [ ("running", FVal.b st.running)
  , ("state", FVal.s st.state)
  , ("health", FVal.s st.health)
  , ("image", FVal.s st.image)
  , ("image_version", FVal.s st.image_version)
  , ("uptime", FVal.s st.uptime)
  , ("started_at", FVal.s st.started_at)
  , ("pid", FVal.i st.pid)
  , ("exit_code", FVal.i st.exit_code)
  , ("error", FVal.s st.error)
  , ("timestamp", FVal.s st.timestamp) ]

/-- `publish_container_state` (monitor.py lines 160-172): publishes one
retained message when `get_container_state` returned a dict, nothing when it
returned `None`. -/
def publish_container_state (cfg : MonCfg) (parse : String → Option Int)
    (now : Int) (nowIso : String) (c : Container) : Option Message :=
  (get_container_state parse now nowIso c).map fun st =>
    { topic := "docker/" ++ cfg.deviceId ++ "/" ++ c.name ++ "/state"
      payload := snapshot_payload st
      retain := true }

/-- The summary dictionary of `publish_summary` (monitor.py lines 175-186). -/
structure FleetSummary where
  total : Nat
  running : Nat
  stopped : Nat
  sentrylab_version : String
  timestamp : String
deriving DecidableEq, Repr

def fleet_summary (ver : String) (nowIso : String) (cs : List Container) :
    FleetSummary :=
  let running := cs.countP (fun c => c.status == "running")
  let stopped := cs.length - running
  { total := cs.length
    running := running
    stopped := stopped
    sentrylab_version := ver
    timestamp := nowIso }

def summary_payload (s : FleetSummary) : List (String × FVal) :=
  [ ("total", FVal.i s.total)
  , ("running", FVal.i s.running)
  , ("stopped", FVal.i s.stopped)
  , ("sentrylab_version", FVal.s s.sentrylab_version)
  , ("timestamp", FVal.s s.timestamp) ]

/-- `publish_summary` (monitor.py lines 175-195). -/
def publish_summary (cfg : MonCfg) (nowIso : String) (cs : List Container) :
    Message :=
  { topic := "docker/" ++ cfg.deviceId ++ "/summary"
    payload := summary_payload (fleet_summary cfg.sentrylabVersion nowIso cs)
    retain := true }

/-- One poll cycle of `monitor_containers` (monitor.py lines 198-215) over
an already-enumerated container list: publish the summary, then loop over
the containers, each inside a `try/except` so a failing container publishes
nothing and the loop continues. -/
def monitor_containers (cfg : MonCfg) (parse : String → Option Int)
    (now : Int) (nowIso : String) (cs : List Container) : List Message :=
  publish_summary cfg nowIso cs ::
    cs.filterMap (publish_container_state cfg parse now nowIso)

/-- Discovery configuration: the environment-derived constants read by
`discovery.py` (`HA_BASE_TOPIC`, `DEVICE_NAME`, `DEVICE_ID`, `PROXMOX_HOST`,
`PROXMOX_VMID`, `SENTRYLAB_VERSION`). -/
structure DiscCfg where
  haBaseTopic : String
  deviceName : String
  deviceId : String
  proxmoxHost : String
  proxmoxVmid : String
  sentrylabVersion : String
deriving DecidableEq, Repr

/-- `create_device_info` (discovery.py lines 84-92). -/
def create_device_info (cfg : DiscCfg) : DeviceInfo :=
  { identifiers := [cfg.deviceId]
    name := cfg.deviceName
    model := "Docker Engine"
    manufacturer := "Docker Inc."
    sw_version := "SentryLab-Docker v" ++ cfg.sentrylabVersion }

/-- `container_name.replace("-", "_").replace(".", "_")` (discovery.py line
102); two single-character replacements with disjoint patterns, hence one
character-wise map. -/
def safe_name_of (s : String) : String :=
  ⟨s.data.map (fun ch => if ch = '-' || ch = '.' then '_' else ch)⟩

/-- The `topic_prefix` of `publish_container_discovery` (discovery.py line
106): `sl_docker_<PROXMOX_HOST>_<PROXMOX_VMID>_<sanitized name>`. -/
def topic_root (cfg : DiscCfg) (container_name : String) : String :=
  "sl_docker_" ++ cfg.proxmoxHost ++ "_" ++ cfg.proxmoxVmid ++ "_"
    ++ safe_name_of container_name

/-- `binary_sensor_config` and its publish (discovery.py lines 121-136). -/
def status_message (cfg : DiscCfg) (c : Container) : Message :=
  { topic := cfg.haBaseTopic ++ "/binary_sensor/" ++ topic_root cfg c.name
      ++ "_status/config"
    payload :=
      [ ("name", FVal.s (c.name ++ " Status"))
      , ("unique_id", FVal.s (topic_root cfg c.name ++ "_status"))
      , ("state_topic", FVal.s ("docker/" ++ cfg.deviceId ++ "/" ++ c.name ++ "/state"))
      , ("value_template", FVal.s "\x7b\x7b value_json.running \x7d\x7d")
      , ("payload_on", FVal.s "true")
      , ("payload_off", FVal.s "false")
      , ("device_class", FVal.s "running")
      , ("device", FVal.dev (create_device_info cfg))
      , ("icon", FVal.s "mdi:docker") ]
    retain := true }

/-- `state_sensor_config` and its publish (discovery.py lines 138-149). -/
def state_message (cfg : DiscCfg) (c : Container) : Message :=
  { topic := cfg.haBaseTopic ++ "/sensor/" ++ topic_root cfg c.name
      ++ "_state/config"
    payload :=
      [ ("name", FVal.s (c.name ++ " State"))
      , ("unique_id", FVal.s (topic_root cfg c.name ++ "_state"))
      , ("state_topic", FVal.s ("docker/" ++ cfg.deviceId ++ "/" ++ c.name ++ "/state"))
      , ("value_template", FVal.s "\x7b\x7b value_json.state \x7d\x7d")
      , ("device", FVal.dev (create_device_info cfg))
      , ("icon", FVal.s "mdi:information-outline") ]
    retain := true }

/-- `uptime_sensor_config` and its publish (discovery.py lines 151-162). -/
def uptime_message (cfg : DiscCfg) (c : Container) : Message :=
  { topic := cfg.haBaseTopic ++ "/sensor/" ++ topic_root cfg c.name
      ++ "_uptime/config"
    payload :=
      [ ("name", FVal.s (c.name ++ " Uptime"))
      , ("unique_id", FVal.s (topic_root cfg c.name ++ "_uptime"))
      , ("state_topic", FVal.s ("docker/" ++ cfg.deviceId ++ "/" ++ c.name ++ "/state"))
      , ("value_template", FVal.s "\x7b\x7b value_json.uptime \x7d\x7d")
      , ("device", FVal.dev (create_device_info cfg))
      , ("icon", FVal.s "mdi:clock-outline") ]
    retain := true }

/-- `health_sensor_config` and its publish (discovery.py lines 164-175). -/
def health_message (cfg : DiscCfg) (c : Container) : Message :=
  { topic := cfg.haBaseTopic ++ "/sensor/" ++ topic_root cfg c.name
      ++ "_health/config"
    payload :=
      [ ("name", FVal.s (c.name ++ " Health"))
      , ("unique_id", FVal.s (topic_root cfg c.name ++ "_health"))
      , ("state_topic", FVal.s ("docker/" ++ cfg.deviceId ++ "/" ++ c.name ++ "/state"))
      , ("value_template", FVal.s "\x7b\x7b value_json.health | default(\x27N/A\x27) \x7d\x7d")
      , ("device", FVal.dev (create_device_info cfg))
      , ("icon", FVal.s "mdi:heart-pulse") ]
    retain := true }

/-- `image_sensor_config` and its publish (discovery.py lines 177-188). -/
def image_message (cfg : DiscCfg) (c : Container) : Message :=
  { topic := cfg.haBaseTopic ++ "/sensor/" ++ topic_root cfg c.name
      ++ "_image/config"
    payload :=
      [ ("name", FVal.s (c.name ++ " Image"))
      , ("unique_id", FVal.s (topic_root cfg c.name ++ "_image"))
      , ("state_topic", FVal.s ("docker/" ++ cfg.deviceId ++ "/" ++ c.name ++ "/state"))
      , ("value_template", FVal.s "\x7b\x7b value_json.image \x7d\x7d")
      , ("device", FVal.dev (create_device_info cfg))
      , ("icon", FVal.s "mdi:package-variant") ]
    retain := true }

/-- `image_version_config` and its publish (discovery.py lines 190-201):
note the divergent unique id `docker_<safe_name>_version` and topic path
`sensor/docker_<safe_name>/version/config`. -/
def image_version_message (cfg : DiscCfg) (c : Container) : Message :=
  { topic := cfg.haBaseTopic ++ "/sensor/docker_" ++ safe_name_of c.name
      ++ "/version/config"
    payload :=
      [ ("name", FVal.s (c.name ++ " Version"))
      , ("unique_id", FVal.s ("docker_" ++ safe_name_of c.name ++ "_version"))
      , ("state_topic", FVal.s ("docker/" ++ cfg.deviceId ++ "/" ++ c.name ++ "/state"))
      , ("value_template", FVal.s "\x7b\x7b value_json.image_version \x7d\x7d")
      , ("device", FVal.dev (create_device_info cfg))
      , ("icon", FVal.s "mdi:tag") ]
    retain := true }

/-- `sentrylab_version_config` and its publish.  `publish_container_discovery`
(discovery.py lines 203-214) and `publish_summary_discovery` (lines 264-275)
construct this identical dict, with no container-dependent field. -/
def sentrylab_version_message (cfg : DiscCfg) : Message :=
  { topic := cfg.haBaseTopic ++ "/sensor/docker_" ++ cfg.deviceId
      ++ "/sentrylab_version/config"
    payload :=
      [ ("name", FVal.s (cfg.deviceName ++ " SentryLab Version"))
      , ("unique_id", FVal.s ("docker_" ++ cfg.deviceId ++ "_sentrylab_version"))
      , ("state_topic", FVal.s ("docker/" ++ cfg.deviceId ++ "/summary"))
      , ("value_template", FVal.s "\x7b\x7b value_json.sentrylab_version \x7d\x7d")
      , ("device", FVal.dev (create_device_info cfg))
      , ("icon", FVal.s "mdi:information") ]
    retain := true }

/-- `publish_container_discovery` (discovery.py lines 95-214), non-debug
path: seven retained publishes in source order.  The image resolution of
lines 108-119 is computed but none of the seven configs uses its result. -/
def publish_container_discovery (cfg : DiscCfg) (c : Container) :
    List Message :=
  let _img := resolveImage c.rawImage c.imageTags
  [ status_message cfg c
  , state_message cfg c
  , uptime_message cfg c
  , health_message cfg c
  , image_message cfg c
  , image_version_message cfg c
  , sentrylab_version_message cfg ]

/-- `total_config` and its publish (discovery.py lines 225-236). -/
def total_message (cfg : DiscCfg) : Message :=
  { topic := cfg.haBaseTopic ++ "/sensor/docker_" ++ cfg.deviceId
      ++ "/total/config"
    payload :=
      [ ("name", FVal.s (cfg.deviceName ++ " Total Containers"))
      , ("unique_id", FVal.s ("docker_" ++ cfg.deviceId ++ "_total"))
      , ("state_topic", FVal.s ("docker/" ++ cfg.deviceId ++ "/summary"))
      , ("value_template", FVal.s "\x7b\x7b value_json.total \x7d\x7d")
      , ("device", FVal.dev (create_device_info cfg))
      , ("icon", FVal.s "mdi:counter") ]
    retain := true }

/-- `running_config` and its publish (discovery.py lines 238-249). -/
def running_message (cfg : DiscCfg) : Message :=
  { topic := cfg.haBaseTopic ++ "/sensor/docker_" ++ cfg.deviceId
      ++ "/running/config"
    payload :=
      [ ("name", FVal.s (cfg.deviceName ++ " Running Containers"))
      , ("unique_id", FVal.s ("docker_" ++ cfg.deviceId ++ "_running"))
      , ("state_topic", FVal.s ("docker/" ++ cfg.deviceId ++ "/summary"))
      , ("value_template", FVal.s "\x7b\x7b value_json.running \x7d\x7d")
      , ("device", FVal.dev (create_device_info cfg))
      , ("icon", FVal.s "mdi:play-circle") ]
    retain := true }

/-- `stopped_config` and its publish (discovery.py lines 251-262). -/
def stopped_message (cfg : DiscCfg) : Message :=
  { topic := cfg.haBaseTopic ++ "/sensor/docker_" ++ cfg.deviceId
      ++ "/stopped/config"
    payload :=
      [ ("name", FVal.s (cfg.deviceName ++ " Stopped Containers"))
      , ("unique_id", FVal.s ("docker_" ++ cfg.deviceId ++ "_stopped"))
      , ("state_topic", FVal.s ("docker/" ++ cfg.deviceId ++ "/summary"))
      , ("value_template", FVal.s "\x7b\x7b value_json.stopped \x7d\x7d")
      , ("device", FVal.dev (create_device_info cfg))
      , ("icon", FVal.s "mdi:stop-circle") ]
    retain := true }

/-- `publish_summary_discovery` (discovery.py lines 217-275), non-debug
path: four retained publishes in source order. -/
def publish_summary_discovery (cfg : DiscCfg) : List Message :=
  [ total_message cfg
  , running_message cfg
  , stopped_message cfg
  , sentrylab_version_message cfg ]

/-- One discovery run (`main`, discovery.py lines 278-318) over an
already-enumerated container list: the fleet-level descriptors first, then
the per-container descriptors in enumeration order. -/
def discovery_run (cfg : DiscCfg) (cs : List Container) : List Message :=
  publish_summary_discovery cfg
    ++ cs.flatMap (publish_container_discovery cfg)

/-- The value of a key in a published JSON payload (first occurrence, as a
JSON object lookup). -/
def payload_lookup (p : List (String × FVal)) (k : String) : Option FVal :=
  (p.find? (fun kv => kv.1 == k)).map (fun kv => kv.2)

/-- C1: for every poll cycle, the published `FleetSummary` satisfies
`stopped = total - running`, where `total` is the number of enumerated
containers and `running` is the number of enumerated containers whose
`status` equals `"running"` (the subtraction read in `ℤ`, i.e. it never
truncates). -/
theorem fleet_summary_stopped (ver nowIso : String) (cs : List Container) :
    (fleet_summary ver nowIso cs).total = cs.length
  ∧ (fleet_summary ver nowIso cs).running
      = cs.countP (fun c => c.status == "running")
  ∧ ((fleet_summary ver nowIso cs).stopped : ℤ)
      = ((fleet_summary ver nowIso cs).total : ℤ)
        - ((fleet_summary ver nowIso cs).running : ℤ) := by
  refine ⟨rfl, rfl, ?_⟩
  have h := List.countP_le_length (fun c => c.status == "running") (l := cs)
  simp only [fleet_summary]
  omega

/-- C2: `calculate_uptime` is total (the embedding returns a `String` for
every input): it yields `"Not started"` on the empty string and on the
zero-time sentinel, `"Unknown"` on any parse failure, and otherwise formats
the elapsed duration `now - t` as `"<d>d <h>h <m>m"` at ≥ 1 day,
`"<h>h <m>m"` at ≥ 1 hour but < 1 day, and `"<m>m <s>s"` below 1 hour. -/
theorem calculate_uptime_spec (parse : String → Option Int) (now : Int)
    (s : String) :
    ((s = "" ∨ s = "0001-01-01T00:00:00Z") →
      calculate_uptime parse now s = "Not started")
  ∧ (¬(s = "" ∨ s = "0001-01-01T00:00:00Z") → parse (replaceZ s) = none →
      calculate_uptime parse now s = "Unknown")
  ∧ (∀ t : Int, ¬(s = "" ∨ s = "0001-01-01T00:00:00Z") →
      parse (replaceZ s) = some t →
        (86400 ≤ now - t →
          calculate_uptime parse now s =
            toString ((now - t) / 86400) ++ "d "
              ++ toString ((now - t) % 86400 / 3600) ++ "h "
              ++ toString ((now - t) % 3600 / 60) ++ "m")
        ∧ (3600 ≤ now - t → now - t < 86400 →
          calculate_uptime parse now s =
            toString ((now - t) / 3600) ++ "h "
              ++ toString ((now - t) % 3600 / 60) ++ "m")
        ∧ (0 ≤ now - t → now - t < 3600 →
          calculate_uptime parse now s =
            toString ((now - t) / 60) ++ "m "
              ++ toString ((now - t) % 60) ++ "s")) := by
  refine ⟨fun h => by rw [calculate_uptime, if_pos h],
          fun h hp => by rw [calculate_uptime, if_neg h, hp], ?_⟩
  intro t h hp
  refine ⟨?_, ?_, ?_⟩
  · intro hge
    have h1 : (1:ℤ) ≤ (now - t) / 86400 := by
      rw [Int.le_ediv_iff_mul_le (by norm_num : (0:ℤ) < 86400)]; omega
    simp only [calculate_uptime, if_neg h, hp]
    rw [if_pos (by omega : (0:ℤ) < (now - t) / 86400)]
    rw [Int.emod_emod_of_dvd (now - t) (by norm_num : (3600:ℤ) ∣ 86400)]
  · intro hge hlt
    have h0 : (0:ℤ) ≤ now - t := by omega
    simp only [calculate_uptime, if_neg h, hp]
    rw [Int.ediv_eq_zero_of_lt h0 hlt, Int.emod_eq_of_lt h0 hlt]
    rw [if_neg (by omega : ¬ (0:ℤ) < 0)]
    have h1 : (1:ℤ) ≤ (now - t) / 3600 := by
      rw [Int.le_ediv_iff_mul_le (by norm_num : (0:ℤ) < 3600)]; omega
    rw [if_pos (by omega : (0:ℤ) < (now - t) / 3600)]
  · intro h0 hlt
    simp only [calculate_uptime, if_neg h, hp]
    rw [Int.ediv_eq_zero_of_lt h0 (by omega : now - t < 86400),
        Int.emod_eq_of_lt h0 (by omega : now - t < 86400),
        Int.ediv_eq_zero_of_lt h0 hlt, Int.emod_eq_of_lt h0 hlt]
    rw [if_neg (by omega : ¬ (0:ℤ) < 0), if_neg (by omega : ¬ (0:ℤ) < 0)]

/-- A parse function returning epoch second `0` on every input (a concrete
stand-in for `datetime.fromisoformat` in witnesses). -/
def parse_at_zero : String → Option Int := fun _ => some 0

/-- A parse function that always fails (models `fromisoformat` raising). -/
def parse_fails : String → Option Int := fun _ => none

/-- Witness for C2: the boundary cases of the claim, evaluated concretely
(5 minutes 3 seconds, 2 hours 10 minutes, exactly 1 day, the two
`"Not started"` sentinels, and a parse failure). -/
theorem calculate_uptime_spec_witness :
    calculate_uptime parse_at_zero 303 "2026-01-01T00:05:03Z" = "5m 3s"
  ∧ calculate_uptime parse_at_zero 7800 "2026-01-01T02:10:00Z" = "2h 10m"
  ∧ calculate_uptime parse_at_zero 86400 "2026-01-02T00:00:00Z" = "1d 0h 0m"
  ∧ calculate_uptime parse_at_zero 0 "" = "Not started"
  ∧ calculate_uptime parse_at_zero 0 "0001-01-01T00:00:00Z" = "Not started"
  ∧ calculate_uptime parse_fails 0 "2026-01-01T00:00:00Z" = "Unknown" := by
  refine ⟨?_, ?_, ?_, ?_, ?_, ?_⟩
  · exact (((calculate_uptime_spec parse_at_zero 303 "2026-01-01T00:05:03Z").2.2
      0 (by decide) rfl).2.2 (by decide) (by decide)).trans (by decide)
  · exact ((((calculate_uptime_spec parse_at_zero 7800 "2026-01-01T02:10:00Z").2.2
      0 (by decide) rfl).2.1 (by decide) (by decide))).trans (by decide)
  · exact (((calculate_uptime_spec parse_at_zero 86400 "2026-01-02T00:00:00Z").2.2
      0 (by decide) rfl).1 (by decide)).trans (by decide)
  · exact (calculate_uptime_spec parse_at_zero 0 "").1 (Or.inl rfl)
  · exact (calculate_uptime_spec parse_at_zero 0 "0001-01-01T00:00:00Z").1 (Or.inr rfl)
  · exact (calculate_uptime_spec parse_fails 0 "2026-01-01T00:00:00Z").2.1 (by decide) rfl

theorem takeWhile_append_of_sat {α} {p : α → Bool} {xs : List α} {y : α}
    {ys : List α} (hx : ∀ x ∈ xs, p x = true) (hy : p y = false) :
    (xs ++ y :: ys).takeWhile p = xs := by
  induction xs with
  | nil => simp [List.takeWhile_cons, hy]
  | cons a as ih =>
    have ha : p a = true := hx a (List.mem_cons_self a as)
    simp [List.takeWhile_cons, ha,
      ih (fun x hx2 => hx x (List.mem_cons_of_mem a hx2))]

theorem dropWhile_append_of_sat {α} {p : α → Bool} {xs : List α} {y : α}
    {ys : List α} (hx : ∀ x ∈ xs, p x = true) (hy : p y = false) :
    (xs ++ y :: ys).dropWhile p = y :: ys := by
  induction xs with
  | nil => simp [List.dropWhile_cons, hy]
  | cons a as ih =>
    have ha : p a = true := hx a (List.mem_cons_self a as)
    simp [List.dropWhile_cons, ha,
      ih (fun x hx2 => hx x (List.mem_cons_of_mem a hx2))]

/-- `rsplit_colon` splits at the LAST colon: appending a colon-free suffix
after a colon recovers exactly the two pieces (`"a:b:c".rsplit(":", 1)`
behaviour). -/
theorem rsplit_colon_split (a b : String) (hb : (':' : Char) ∉ b.data) :
    rsplit_colon (a ++ ":" ++ b) = (a, b) := by
  obtain ⟨la⟩ := a
  obtain ⟨lb⟩ := b
  have hdata : ((⟨la⟩ : String) ++ ":" ++ ⟨lb⟩).data = la ++ ':' :: lb := by
    rw [String.data_append, String.data_append]
    simp [show (":" : String).data = [':'] from rfl]
  have hx : ∀ x ∈ lb.reverse, (x != ':') = true := by
    intro x hxm
    rw [bne_iff_ne]
    intro hc
    exact hb (by simpa [hc] using (List.mem_reverse).1 hxm)
  have hrev : ((⟨la⟩ : String) ++ ":" ++ ⟨lb⟩).data.reverse
      = lb.reverse ++ ':' :: la.reverse := by
    rw [hdata]; simp
  have hdw : ((⟨la⟩ : String) ++ ":" ++ ⟨lb⟩).data.reverse.dropWhile
      (fun ch => ch != ':') = ':' :: la.reverse := by
    rw [hrev]; exact dropWhile_append_of_sat hx (by simp)
  have htw : ((⟨la⟩ : String) ++ ":" ++ ⟨lb⟩).data.reverse.takeWhile
      (fun ch => ch != ':') = lb.reverse := by
    rw [hrev]; exact takeWhile_append_of_sat hx (by simp)
  simp only [rsplit_colon, hdw, htw]
  rw [if_neg (by simp)]
  simp

/-- With no colon present, `rsplit_colon` leaves the string whole and the
tag defaults to `"latest"`. -/
theorem rsplit_colon_no_colon (s : String) (hs : (':' : Char) ∉ s.data) :
    rsplit_colon s = (s, "latest") := by
  have h : s.data.reverse.dropWhile (fun ch => ch != ':') = [] := by
    refine List.dropWhile_eq_nil_iff.mpr ?_
    intro x hxm
    rw [bne_iff_ne]
    intro hc
    exact hs (by simpa [hc] using (List.mem_reverse).1 hxm)
  simp [rsplit_colon, h]

/-- C3: image/tag resolution prefers the first runtime tag, falls back to
the raw configured image when no tags exist, splits on the last `:`
(`"nginx:1.25"` into `"nginx"`/`"1.25"`), defaults the version to
`"latest"` when no `:` is present, yields `image_version = "unknown"` when
the tags access raises, and the published `image` field always equals the
raw configured image string while `image_version` is the resolved tag. -/
theorem image_resolution_spec :
    (∀ (image : String) (t : String) (ts : List String),
        resolveImage image (Except.ok (t :: ts)) = rsplit_colon t)
  ∧ (∀ image : String, resolveImage image (Except.ok []) = rsplit_colon image)
  ∧ (∀ a b : String, (':' : Char) ∉ b.data →
        rsplit_colon (a ++ ":" ++ b) = (a, b))
  ∧ (∀ s : String, (':' : Char) ∉ s.data → rsplit_colon s = (s, "latest"))
  ∧ rsplit_colon "nginx:1.25" = ("nginx", "1.25")
  ∧ (∀ image : String, resolveImage image (Except.error ()) = (image, "unknown"))
  ∧ (∀ (parse : String → Option Int) (now : Int) (nowIso : String)
        (c : Container), c.attrsOk = true →
          (get_container_state parse now nowIso c).map (fun st => st.image)
            = some c.rawImage
        ∧ (get_container_state parse now nowIso c).map (fun st => st.image_version)
            = some (resolveImage c.rawImage c.imageTags).2) := by
  refine ⟨fun _ _ _ => rfl, fun _ => rfl, rsplit_colon_split,
    rsplit_colon_no_colon, by decide, fun _ => rfl, ?_⟩
  intro parse now nowIso c hc
  constructor <;> simp [get_container_state, hc]

/-- Witness for C3: the resolution evaluated at concrete inputs
(`"nginx:1.25"` as first tag, empty tag list, raised tags access). -/
theorem image_resolution_spec_witness :
    resolveImage "nginx" (Except.ok ["nginx:1.25"]) = ("nginx", "1.25")
  ∧ resolveImage "nginx" (Except.ok []) = ("nginx", "latest")
  ∧ resolveImage "nginx:1.25" (Except.error ()) = ("nginx:1.25", "unknown") := by
  refine ⟨?_, ?_, ?_⟩
  · exact (image_resolution_spec.1 "nginx" "nginx:1.25" []).trans (by decide)
  · exact (image_resolution_spec.2.1 "nginx").trans
      (image_resolution_spec.2.2.2.1 "nginx" (by decide))
  · exact image_resolution_spec.2.2.2.2.2.1 "nginx:1.25"

/-- C4: sanitization replaces `-` and `.` with `_` (`"my-app.v2"` becomes
`"my_app_v2"`); the status/state/uptime/health/image descriptors carry
unique ids built on the `sl_docker_<host>_<vmid>_<sanitized>` root and are
published to `<HA_BASE_TOPIC>/binary_sensor/<unique_id>/config`
(running-status) resp. `<HA_BASE_TOPIC>/sensor/<unique_id>/config` (the
others), while the image-version descriptor uses the divergent unique id
`docker_<sanitized>_version` under topic
`<HA_BASE_TOPIC>/sensor/docker_<sanitized>/version/config`. -/
theorem discovery_naming_spec (cfg : DiscCfg) (c : Container) :
    safe_name_of "my-app.v2" = "my_app_v2"
  ∧ topic_root cfg c.name
      = "sl_docker_" ++ cfg.proxmoxHost ++ "_" ++ cfg.proxmoxVmid ++ "_"
          ++ safe_name_of c.name
  ∧ ((publish_container_discovery cfg c).map
        (fun m => (m.topic, payload_lookup m.payload "unique_id"))
      = [ (cfg.haBaseTopic ++ "/binary_sensor/" ++ topic_root cfg c.name
              ++ "_status/config",
            some (FVal.s (topic_root cfg c.name ++ "_status")))
        , (cfg.haBaseTopic ++ "/sensor/" ++ topic_root cfg c.name
              ++ "_state/config",
            some (FVal.s (topic_root cfg c.name ++ "_state")))
        , (cfg.haBaseTopic ++ "/sensor/" ++ topic_root cfg c.name
              ++ "_uptime/config",
            some (FVal.s (topic_root cfg c.name ++ "_uptime")))
        , (cfg.haBaseTopic ++ "/sensor/" ++ topic_root cfg c.name
              ++ "_health/config",
            some (FVal.s (topic_root cfg c.name ++ "_health")))
        , (cfg.haBaseTopic ++ "/sensor/" ++ topic_root cfg c.name
              ++ "_image/config",
            some (FVal.s (topic_root cfg c.name ++ "_image")))
        , (cfg.haBaseTopic ++ "/sensor/docker_" ++ safe_name_of c.name
              ++ "/version/config",
            some (FVal.s ("docker_" ++ safe_name_of c.name ++ "_version")))
        , (cfg.haBaseTopic ++ "/sensor/docker_" ++ cfg.deviceId
              ++ "/sentrylab_version/config",
            some (FVal.s ("docker_" ++ cfg.deviceId ++ "_sentrylab_version"))) ])
  ∧ (∀ base p : String,
        base ++ "/binary_sensor/" ++ p ++ "_status/config"
          = base ++ "/binary_sensor/" ++ (p ++ "_status") ++ "/config")
  ∧ (∀ base p : String,
        base ++ "/sensor/" ++ p ++ "_state/config"
          = base ++ "/sensor/" ++ (p ++ "_state") ++ "/config")
  ∧ (∀ base p : String,
        base ++ "/sensor/" ++ p ++ "_uptime/config"
          = base ++ "/sensor/" ++ (p ++ "_uptime") ++ "/config")
  ∧ (∀ base p : String,
        base ++ "/sensor/" ++ p ++ "_health/config"
          = base ++ "/sensor/" ++ (p ++ "_health") ++ "/config")
  ∧ (∀ base p : String,
        base ++ "/sensor/" ++ p ++ "_image/config"
          = base ++ "/sensor/" ++ (p ++ "_image") ++ "/config") := by
  refine ⟨by decide, rfl, rfl, ?_, ?_, ?_, ?_, ?_⟩
  · intro base p
    simp only [String.append_assoc]
    rw [show ("_status" : String) ++ "/config" = "_status/config" from rfl]
  · intro base p
    simp only [String.append_assoc]
    rw [show ("_state" : String) ++ "/config" = "_state/config" from rfl]
  · intro base p
    simp only [String.append_assoc]
    rw [show ("_uptime" : String) ++ "/config" = "_uptime/config" from rfl]
  · intro base p
    simp only [String.append_assoc]
    rw [show ("_health" : String) ++ "/config" = "_health/config" from rfl]
  · intro base p
    simp only [String.append_assoc]
    rw [show ("_image" : String) ++ "/config" = "_image/config" from rfl]

theorem flatMap_discovery_length (cfg : DiscCfg) (cs : List Container) :
    (cs.flatMap (publish_container_discovery cfg)).length = 7 * cs.length := by
  induction cs with
  | nil => rfl
  | cons a as ih =>
    simp only [List.flatMap_cons, List.length_append, ih, List.length_cons]
    simp [publish_container_discovery]
    ring

/-- C5: every run of the discovery publisher emits exactly 7 retained
descriptor messages per container and exactly 4 retained fleet-level
descriptor messages once per run; a run over zero containers publishes
exactly the 4 fleet-level messages. -/
theorem discovery_message_counts (cfg : DiscCfg) (c : Container)
    (cs : List Container) :
    (publish_container_discovery cfg c).length = 7
  ∧ (publish_container_discovery cfg c).all (fun m => m.retain) = true
  ∧ (publish_summary_discovery cfg).length = 4
  ∧ (publish_summary_discovery cfg).all (fun m => m.retain) = true
  ∧ (discovery_run cfg cs).length = 4 + 7 * cs.length
  ∧ discovery_run cfg [] = publish_summary_discovery cfg := by
  refine ⟨rfl, rfl, rfl, rfl, ?_, by simp [discovery_run]⟩
  simp only [discovery_run, List.length_append, flatMap_discovery_length]
  rfl

/-- C6: a container whose attribute refresh or state computation raises
publishes no state message at all, and every other container enumerated in
the same cycle — before or after it — is still processed and published. -/
theorem monitor_failure_isolation (cfg : MonCfg) (parse : String → Option Int)
    (now : Int) (nowIso : String) (l1 : List Container) (b : Container)
    (l2 : List Container) (hb : b.attrsOk = false) :
    publish_container_state cfg parse now nowIso b = none
  ∧ monitor_containers cfg parse now nowIso (l1 ++ b :: l2)
      = publish_summary cfg nowIso (l1 ++ b :: l2)
        :: (l1.filterMap (publish_container_state cfg parse now nowIso)
            ++ l2.filterMap (publish_container_state cfg parse now nowIso)) := by
  have h1 : publish_container_state cfg parse now nowIso b = none := by
    simp [publish_container_state, get_container_state, hb]
  refine ⟨h1, ?_⟩
  simp [monitor_containers, List.filterMap_append, List.filterMap_cons, h1]

/-- A `State` record with every optional field absent. -/
def state_all_none : StateRec :=
  { running := none, status := none, health := none, startedAt := none,
    pid := none, exitCode := none, error := none }

def sample_ok_a : Container :=
  { name := "alpha", status := "running", attrsOk := true,
    state := state_all_none, rawImage := "nginx:1.25",
    imageTags := Except.ok ["nginx:1.25"] }

def sample_fail_b : Container :=
  { name := "beta", status := "running", attrsOk := false,
    state := state_all_none, rawImage := "redis",
    imageTags := Except.ok [] }

def sample_ok_c : Container :=
  { name := "gamma", status := "exited", attrsOk := true,
    state := state_all_none, rawImage := "redis",
    imageTags := Except.error () }

def mon_cfg : MonCfg := { deviceId := "docker_host", sentrylabVersion := "1.0.0" }

/-- Witness for C6: in the cycle `[alpha, beta, gamma]` with `beta`'s
attribute fetch raising, the published messages are the summary plus the
state messages of `alpha` and `gamma` only. -/
theorem monitor_failure_isolation_witness :
    monitor_containers mon_cfg parse_at_zero 0 "ts"
        [sample_ok_a, sample_fail_b, sample_ok_c]
      = publish_summary mon_cfg "ts" [sample_ok_a, sample_fail_b, sample_ok_c]
        :: ([sample_ok_a].filterMap
              (publish_container_state mon_cfg parse_at_zero 0 "ts")
            ++ [sample_ok_c].filterMap
              (publish_container_state mon_cfg parse_at_zero 0 "ts")) :=
  (monitor_failure_isolation mon_cfg parse_at_zero 0 "ts"
    [sample_ok_a] sample_fail_b [sample_ok_c] rfl).2

/-- C7: the discovery descriptors for a container depend only on the
configuration and the container's name — two containers with the same name
but different health, running state, image tags, attribute availability or
raw image produce identical topics and payloads. -/
theorem discovery_noninterference (cfg : DiscCfg) (c1 c2 : Container)
    (h : c1.name = c2.name) :
    publish_container_discovery cfg c1 = publish_container_discovery cfg c2 := by
  simp only [publish_container_discovery, status_message, state_message,
    uptime_message, health_message, image_message, image_version_message, h]

def disc_cfg : DiscCfg :=
  { haBaseTopic := "homeassistant", deviceName := "Docker Host",
    deviceId := "docker_host", proxmoxHost := "proxmox", proxmoxVmid := "0",
    sentrylabVersion := "1.0.0" }

def sample_web_running : Container :=
  { name := "web", status := "running", attrsOk := true,
    state := { running := some true, status := some "running",
               health := some (some "healthy"),
               startedAt := some "2026-01-01T00:00:00Z", pid := some 42,
               exitCode := some 0, error := some "" },
    rawImage := "nginx:1.25", imageTags := Except.ok ["nginx:1.25"] }

def sample_web_failed : Container :=
  { name := "web", status := "exited", attrsOk := false,
    state := state_all_none, rawImage := "redis",
    imageTags := Except.error () }

/-- Witness for C7: two containers both named `"web"`, one running and
healthy with resolved tags, the other failed with a raised tags access,
receive identical discovery messages. -/
theorem discovery_noninterference_witness :
    publish_container_discovery disc_cfg sample_web_running
      = publish_container_discovery disc_cfg sample_web_failed :=
  discovery_noninterference disc_cfg sample_web_running sample_web_failed rfl

/-- C8: within one poll cycle the fleet summary is the first published
message, and everything after it is exactly the per-container state
messages; no per-container state publish precedes the summary publish of
its own cycle. -/
theorem monitor_summary_first (cfg : MonCfg) (parse : String → Option Int)
    (now : Int) (nowIso : String) (cs : List Container) :
    (monitor_containers cfg parse now nowIso cs).head?
      = some (publish_summary cfg nowIso cs)
  ∧ (monitor_containers cfg parse now nowIso cs).tail
      = cs.filterMap (publish_container_state cfg parse now nowIso)
  ∧ (publish_summary cfg nowIso cs).topic
      = "docker/" ++ cfg.deviceId ++ "/summary" :=
  ⟨rfl, rfl, rfl⟩

/-- C9: when the container's attributes are readable, every missing field
of the `State` record is substituted by its fixed default: `running` by
`False`, `state` by `"unknown"`, `pid` and `exit_code` by `0`, `error` by
`""`, `started_at` by `""` (which makes `uptime` `"Not started"`), and
`health` is `"N/A"` whenever the record has no `"Health"` key. -/
theorem container_state_defaults (parse : String → Option Int) (now : Int)
    (nowIso : String) (c : Container) (hc : c.attrsOk = true) :
    (c.state.running = none →
      (get_container_state parse now nowIso c).map (fun st => st.running)
        = some false)
  ∧ (c.state.status = none →
      (get_container_state parse now nowIso c).map (fun st => st.state)
        = some "unknown")
  ∧ (c.state.pid = none →
      (get_container_state parse now nowIso c).map (fun st => st.pid)
        = some 0)
  ∧ (c.state.exitCode = none →
      (get_container_state parse now nowIso c).map (fun st => st.exit_code)
        = some 0)
  ∧ (c.state.error = none →
      (get_container_state parse now nowIso c).map (fun st => st.error)
        = some "")
  ∧ (c.state.startedAt = none →
      (get_container_state parse now nowIso c).map (fun st => st.started_at)
        = some ""
      ∧ (get_container_state parse now nowIso c).map (fun st => st.uptime)
        = some "Not started")
  ∧ (c.state.health = none →
      (get_container_state parse now nowIso c).map (fun st => st.health)
        = some "N/A") := by
  refine ⟨?_, ?_, ?_, ?_, ?_, ?_, ?_⟩ <;> intro h <;>
    simp [get_container_state, hc, h, calculate_uptime]

def sample_defaults : Container :=
  { name := "delta", status := "exited", attrsOk := true,
    state := state_all_none, rawImage := "nginx", imageTags := Except.ok [] }

/-- Witness for C9: a container whose `State` record has every optional
field absent produces the snapshot of fixed defaults. -/
theorem container_state_defaults_witness :
    (get_container_state parse_at_zero 0 "ts" sample_defaults).map
        (fun st => st.running) = some false
  ∧ (get_container_state parse_at_zero 0 "ts" sample_defaults).map
        (fun st => st.state) = some "unknown"
  ∧ (get_container_state parse_at_zero 0 "ts" sample_defaults).map
        (fun st => st.pid) = some 0
  ∧ (get_container_state parse_at_zero 0 "ts" sample_defaults).map
        (fun st => st.exit_code) = some 0
  ∧ (get_container_state parse_at_zero 0 "ts" sample_defaults).map
        (fun st => st.error) = some ""
  ∧ (get_container_state parse_at_zero 0 "ts" sample_defaults).map
        (fun st => st.started_at) = some ""
  ∧ (get_container_state parse_at_zero 0 "ts" sample_defaults).map
        (fun st => st.uptime) = some "Not started"
  ∧ (get_container_state parse_at_zero 0 "ts" sample_defaults).map
        (fun st => st.health) = some "N/A" := by
  have h := container_state_defaults parse_at_zero 0 "ts" sample_defaults rfl
  exact ⟨h.1 rfl, h.2.1 rfl, h.2.2.1 rfl, h.2.2.2.1 rfl, h.2.2.2.2.1 rfl,
    (h.2.2.2.2.2.1 rfl).1, (h.2.2.2.2.2.1 rfl).2, h.2.2.2.2.2.2 rfl⟩

theorem status_message_ne (cfg : DiscCfg) (c : Container) :
    status_message cfg c ≠ sentrylab_version_message cfg := by
  simp [status_message, sentrylab_version_message]

theorem state_message_ne (cfg : DiscCfg) (c : Container) :
    state_message cfg c ≠ sentrylab_version_message cfg := by
  simp [state_message, sentrylab_version_message]

theorem uptime_message_ne (cfg : DiscCfg) (c : Container) :
    uptime_message cfg c ≠ sentrylab_version_message cfg := by
  simp [uptime_message, sentrylab_version_message]

theorem health_message_ne (cfg : DiscCfg) (c : Container) :
    health_message cfg c ≠ sentrylab_version_message cfg := by
  simp [health_message, sentrylab_version_message]

theorem image_message_ne (cfg : DiscCfg) (c : Container) :
    image_message cfg c ≠ sentrylab_version_message cfg := by
  simp [image_message, sentrylab_version_message]

theorem image_version_message_ne (cfg : DiscCfg) (c : Container) :
    image_version_message cfg c ≠ sentrylab_version_message cfg := by
  simp [image_version_message, sentrylab_version_message]

theorem total_message_ne (cfg : DiscCfg) :
    total_message cfg ≠ sentrylab_version_message cfg := by
  simp [total_message, sentrylab_version_message]

theorem running_message_ne (cfg : DiscCfg) :
    running_message cfg ≠ sentrylab_version_message cfg := by
  simp [running_message, sentrylab_version_message]

theorem stopped_message_ne (cfg : DiscCfg) :
    stopped_message cfg ≠ sentrylab_version_message cfg := by
  simp [stopped_message, sentrylab_version_message]

theorem count_slv_container (cfg : DiscCfg) (c : Container) :
    (publish_container_discovery cfg c).count (sentrylab_version_message cfg)
      = 1 := by
  show ([status_message cfg c, state_message cfg c, uptime_message cfg c,
    health_message cfg c, image_message cfg c, image_version_message cfg c,
    sentrylab_version_message cfg]).count (sentrylab_version_message cfg) = 1
  rw [List.count_cons_of_ne (Ne.symm (status_message_ne cfg c)),
    List.count_cons_of_ne (Ne.symm (state_message_ne cfg c)),
    List.count_cons_of_ne (Ne.symm (uptime_message_ne cfg c)),
    List.count_cons_of_ne (Ne.symm (health_message_ne cfg c)),
    List.count_cons_of_ne (Ne.symm (image_message_ne cfg c)),
    List.count_cons_of_ne (Ne.symm (image_version_message_ne cfg c)),
    List.count_cons_self, List.count_nil]

theorem count_slv_summary (cfg : DiscCfg) :
    (publish_summary_discovery cfg).count (sentrylab_version_message cfg)
      = 1 := by
  rw [publish_summary_discovery,
    List.count_cons_of_ne (Ne.symm (total_message_ne cfg)),
    List.count_cons_of_ne (Ne.symm (running_message_ne cfg)),
    List.count_cons_of_ne (Ne.symm (stopped_message_ne cfg)),
    List.count_cons_self, List.count_nil]

theorem count_slv_flatMap (cfg : DiscCfg) (cs : List Container) :
    (cs.flatMap (publish_container_discovery cfg)).count
      (sentrylab_version_message cfg) = cs.length := by
  induction cs with
  | nil => rfl
  | cons a as ih =>
    rw [List.flatMap_cons, List.count_append, count_slv_container, ih,
      List.length_cons]
    omega

/-- C10: a discovery run over `n` containers publishes the SentryLab-version
descriptor exactly `n + 1` times — once inside each per-container call (as
its last message) and once in the fleet-level call — and every occurrence
is the same container-independent message on the topic
`<HA_BASE_TOPIC>/sensor/docker_<DEVICE_ID>/sentrylab_version/config`. -/
theorem sentrylab_version_descriptor_count (cfg : DiscCfg)
    (cs : List Container) :
    (discovery_run cfg cs).count (sentrylab_version_message cfg)
      = cs.length + 1
  ∧ (sentrylab_version_message cfg).topic
      = cfg.haBaseTopic ++ "/sensor/docker_" ++ cfg.deviceId
          ++ "/sentrylab_version/config"
  ∧ (∀ c : Container, (publish_container_discovery cfg c).getLast?
        = some (sentrylab_version_message cfg))
  ∧ (∀ c : Container, (publish_container_discovery cfg c).count
        (sentrylab_version_message cfg) = 1)
  ∧ (publish_summary_discovery cfg).count (sentrylab_version_message cfg)
      = 1 := by
  refine ⟨?_, rfl, fun c => rfl, fun c => count_slv_container cfg c,
    count_slv_summary cfg⟩
  rw [discovery_run, List.count_append, count_slv_summary, count_slv_flatMap]
  omega
